import Mathlib

/-!
# Verification of the tauri-sys invocation and event substrate

A shallow embedding of the request/response correlation core of the
repository: the callback registry (`uid`, `transformCallback`), the
invocation channel (`invoke` together with the mock host installed by
`mockIPC`), the event layer (`listen`, `once`, `_unlisten`) and the
environment probe `isTauri`.

The JavaScript global `window` is modelled as an explicit state record.
Registry entries are the `_<id>` properties that `transformCallback`
installs on `window`; the host calls one by evaluating
`window[`_${id}`](payload)`, which we model as `hostInvoke`.  The
callback functions themselves are closures over a handful of shapes that
occur in the source, so they are deep-embedded as the inductive
`Handler` and interpreted by `runHandler`.  Randomness
(`window.crypto.getRandomValues`) is an oracle stream `rng` carried in
the state; a draw reduces the head into the uint32 range, exactly the
range of values a `Uint32Array` cell can hold.
-/

namespace TauriSys

/-- JSON-like structured values crossing the IPC boundary, plus `undefined`
for JavaScript `undefined` (absent option fields, missing object
members). -/
inductive Value where
  | null
  | undefined
  | bool (b : Bool)
  | num (n : Int)
  | str (s : String)
  | arr (xs : List Value)
  | obj (fields : List (String × Value))
deriving Repr, Inhabited

/-- JavaScript truthiness, as applied by `!!window.isTauri`:
`null`, `undefined`, `false`, `0` and the empty string are falsy, every
other modelled value is truthy. -/
def truthy : Value → Bool
  | .null => false
  | .undefined => false
  | .bool b => b
  | .num n => n != 0
  | .str s => s != ""
  | .arr _ => true
  | .obj _ => true

/-- Member access `v.k` on an object, `undefined` when the member is
absent (used for `eventData.id` in the `once` wrapper; event payloads
are objects). -/
def getField : Value → String → Value
  | .obj fields, k =>
    match fields.lookup k with
    | some v => v
    | none => .undefined
  | _, _ => .undefined

/-- The state of one JavaScript promise.  `resolve`/`reject` after
settlement are no-ops, per the Promise semantics. -/
inductive PromiseState where
  | pending
  | resolved (v : Value)
  | rejected (v : Value)
deriving Repr, Inhabited

def PromiseState.resolveWith : PromiseState → Value → PromiseState
  | .pending, v => .resolved v
  | s, _ => s

def PromiseState.rejectWith : PromiseState → Value → PromiseState
  | .pending, v => .rejected v
  | s, _ => s

/-- Deep embedding of the callback closures that the source installs in
the registry:

* `user tag` — an arbitrary caller-supplied handler; invoking it is
  observable as an appended `(tag, payload)` delivery.
* `probe selfId` — a caller-supplied handler that performs re-entrant
  registry access under id `selfId` and records whether that entry is
  live at the moment the handler body runs.
* `invokeResolve pid siblingId` — the success closure created by
  `invoke`: `(e) => { resolve(e); Reflect.deleteProperty(window, `_${error}`) }`.
* `invokeReject pid siblingId` — the error closure created by
  `invoke`: `(e) => { reject(e); Reflect.deleteProperty(window, `_${callback}`) }`.
* `onceEvent tag eventName` — the wrapper `once` passes to `listen`:
  `(eventData) => { handler(eventData); _unlisten(event, eventData.id).catch(() => {}) }`.
-/
inductive Handler where
  | user (tag : Nat)
  | probe (selfId : Nat)
  | invokeResolve (pid : Nat) (siblingId : Nat)
  | invokeReject (pid : Nat) (siblingId : Nat)
  | onceEvent (tag : Nat) (eventName : String)
deriving Repr, DecidableEq

/-- A registry entry: the handler installed under `_<id>` and the
`once` flag given to `transformCallback` (the source's `once3`). -/
structure RegEntry where
  handler : Handler
  once : Bool
deriving Repr, DecidableEq

/-- One call made to the host invocation primitive
(`window.__TAURI_INVOKE__` in the event layer).  `swallowRejection`
records whether the calling site attached a no-op `.catch(() => {})`
to the returned promise, as `once`'s wrapper does. -/
structure SentRequest where
  cmd : String
  args : Value
  swallowRejection : Bool
deriving Repr

/-- The modelled `window` global: the registry properties, the promise
store, the observable effects of handler invocations (`deliveries`,
`observations`), the log of requests sent to the host primitive, the
random oracle, and the optional `window.isTauri` property. -/
structure Window where
  entries : List (Nat × RegEntry) := []
  promises : List PromiseState := []
  deliveries : List (Nat × Value) := []
  observations : List Bool := []
  sent : List SentRequest := []
  rng : List Nat := []
  isTauriProp : Option Value := none
deriving Repr

/-- Models `Object.defineProperty(window, `_${id}`, …)`: installs the entry,
replacing any existing property of the same name (the entries are
created `configurable: true`, so redefinition succeeds). -/
def defineProp : List (Nat × RegEntry) → Nat → RegEntry → List (Nat × RegEntry)
  | [], id, e => [(id, e)]
  | (k, v) :: rest, id, e =>
    if k = id then (id, e) :: rest else (k, v) :: defineProp rest id e

/-- Models `Reflect.deleteProperty(window, `_${id}`)`.  A JavaScript object
holds at most one property per name, so removing every binding of the
key is the exact map semantics. -/
def deleteProp : List (Nat × RegEntry) → Nat → List (Nat × RegEntry)
  | [], _ => []
  | (k, v) :: rest, id =>
    if k = id then deleteProp rest id else (k, v) :: deleteProp rest id

/-- Property lookup `window[`_${id}`]`. -/
def lookupProp : List (Nat × RegEntry) → Nat → Option RegEntry
  | [], _ => none
  | (k, v) :: rest, id => if k = id then some v else lookupProp rest id

/-- An id is live when a registry entry is installed under it. -/
def isLive (w : Window) (id : Nat) : Bool :=
  (lookupProp w.entries id).isSome

/-- Model of `uid()`: `window.crypto.getRandomValues(new Uint32Array(1))[0]`:
one draw from the random oracle, reduced into the uint32 range. -/
def uid (w : Window) : Nat × Window :=
  ((w.rng.headD 0) % 4294967296, { w with rng := w.rng.tail })

/-- Model of `transformCallback(callback, once3 = false)`: draws a fresh-by-hope
identifier and defines the wrapper property
`value: (result) => { if (once3) Reflect.deleteProperty(window, prop); return callback?.(result) }`
under `_<identifier>`, returning the identifier.  No collision check is
performed: a colliding draw silently replaces the existing property. -/
def transformCallback (w : Window) (callback : Handler) (once3 : Bool := false) :
    Nat × Window :=
  let p := uid w
  (p.1, { p.2 with entries := defineProp p.2.entries p.1 ⟨callback, once3⟩ })

/-- Settle the promise at `pid` by resolution, if it is still pending. -/
def settleResolve (ps : List PromiseState) (pid : Nat) (v : Value) : List PromiseState :=
  ps.set pid ((ps.getD pid .pending).resolveWith v)

def settleReject (ps : List PromiseState) (pid : Nat) (v : Value) : List PromiseState :=
  ps.set pid ((ps.getD pid .pending).rejectWith v)

/-- Run the body of a registered callback closure (the part after the
wrapper's conditional self-removal). -/
def runHandler (w : Window) (h : Handler) (result : Value) : Window :=
  match h with
  | .user tag => { w with deliveries := w.deliveries ++ [(tag, result)] }
  | .probe selfId => { w with observations := w.observations ++ [isLive w selfId] }
  | .invokeResolve pid sib =>
    { w with
      promises := settleResolve w.promises pid result,
      entries := deleteProp w.entries sib }
  | .invokeReject pid sib =>
    { w with
      promises := settleReject w.promises pid result,
      entries := deleteProp w.entries sib }
  | .onceEvent tag ev =>
    { w with
      deliveries := w.deliveries ++ [(tag, result)],
      sent := w.sent ++
        [{ cmd := "plugin:event|unlisten",
           args := Value.obj [("event", Value.str ev), ("eventId", getField result "id")],
           swallowRejection := true }] }

/-- The host calls back by name: `window[`_${id}`](result)`.  When no
entry is live under `id` the call fails in the host's own context and
touches no client state (`none`).  Otherwise the wrapper installed by
`transformCallback` runs: a one-shot entry first deletes its own
property, then the underlying callback body executes. -/
def hostInvoke (w : Window) (id : Nat) (result : Value) : Option Window :=
  match lookupProp w.entries id with
  | none => none
  | some e =>
    let w1 := if e.once then { w with entries := deleteProp w.entries id } else w
    some (runHandler w1 e.handler result)

/-- The behaviour of `window.__TAURI_IPC__` at the moment `invoke` calls
it: `inert` — the real host accepts the message and will reply later
through the registry; `throws err` — the primitive itself throws
synchronously (transport failure); `mock cb` — the async function
installed by `mockIPC(cb)`, where `cb cmd args` either returns a value
(`Except.ok`) or throws one (`Except.error`). -/
inductive IPCBehavior where
  | inert
  | throws (err : Value)
  | mock (cb : String → Value → Except Value Value)

/-- A distinguished error value standing for the `TypeError` raised when
the mock host calls a window property that does not exist. -/
def typeErrorVal : Value := Value.str "TypeError"

/-- The `catch (err)` branch of the function `mockIPC` installs:
`window[`_${error}`](err)`.  If the error property is missing as well,
the exception escapes the mock's async function and no client state
changes. -/
def mockDeliverError (w : Window) (errId : Nat) (e : Value) : Window :=
  match hostInvoke w errId e with
  | some w1 => w1
  | none => w

/-- Effect of calling `window.__TAURI_IPC__({cmd, callback, error, ...args})`
under each modelled behaviour.  For `mock cb` this is the body installed
by `mockIPC`: `try { window[`_${callback}`](await cb(cmd, args)) } catch
(err) { window[`_${error}`](err) }`.  For `throws err` the promise
executor of `invoke` has thrown after installing both entries, so the
`Promise` constructor rejects the pending promise — and nothing removes
the two entries. -/
def runIPC (ipc : IPCBehavior) (w : Window) (cmd : String) (cbId errId : Nat)
    (args : Value) (pid : Nat) : Window :=
  match ipc with
  | .inert => w
  | .throws err => { w with promises := settleReject w.promises pid err }
  | .mock cb =>
    match cb cmd args with
    | .ok v =>
      match hostInvoke w cbId v with
      | some w1 => w1
      | none => mockDeliverError w errId typeErrorVal
    | .error e => mockDeliverError w errId e

/-- What a call of `invoke` leaves behind: the new state, the index of
the promise it returned, and the two identifiers it registered. -/
structure InvokeResult where
  w : Window
  pid : Nat
  callbackId : Nat
  errorId : Nat

/-- Model of `invoke(cmd, args = {})` from the source: create a fresh
pending promise, register the one-shot success entry and the one-shot
error entry (each closure captures the sibling's identifier binding:
the success body deletes `_${error}`, the error body deletes
`_${callback}`), then call the host invocation primitive.  The two
`uid` draws are taken up front and the two property definitions follow;
this is observably the same as the source's two interleaved
`transformCallback` calls, since `uid` never reads the entries and
`defineProp` never reads the oracle. -/
def invokeCall (ipc : IPCBehavior) (w : Window) (cmd : String)
    (args : Value := Value.obj []) : InvokeResult :=
  let pid := w.promises.length
  let w0 : Window := { w with promises := w.promises ++ [PromiseState.pending] }
  let d1 := uid w0
  let d2 := uid d1.2
  let w1 : Window :=
    { d2.2 with entries := defineProp d2.2.entries d1.1 ⟨.invokeResolve pid d2.1, true⟩ }
  let w2 : Window :=
    { w1 with entries := defineProp w1.entries d2.1 ⟨.invokeReject pid d1.1, true⟩ }
  ⟨runIPC ipc w2 cmd d1.1 d2.1 args pid, pid, d1.1, d2.1⟩

/-- The state of the promise `pid` (pending when out of range). -/
def promiseAt (w : Window) (pid : Nat) : PromiseState :=
  w.promises.getD pid .pending

/-- `options?.target`, the `windowLabel` field sent by `listen`:
`undefined` when no target option was given. -/
def targetValue : Option String → Value
  | none => Value.undefined
  | some s => Value.str s

/-- What a call of the event layer's `listen` leaves behind before the
host has replied: the new state and the `CallbackId` of the persistent
handler entry it registered. -/
structure ListenPending where
  w : Window
  cbId : Nat

/-- Model of the event layer's `listen(event, handler, options)`:
register `handler` through `transformCallback` with the `once` flag
defaulted (persistent entry), then send the
`"plugin:event|listen"` command carrying the event name, the
`windowLabel` and the handler's id to the host primitive.  The host
later resolves that request with the subscription token `eventId`; the
promise `listen` returns then resolves to the thunk
`async () => _unlisten(event, eventId)`, modelled by
`unsubscribeThunk`. -/
def listen (w : Window) (event : String) (handler : Handler)
    (target : Option String) : ListenPending :=
  let p := transformCallback w handler
  ⟨{ p.2 with sent := p.2.sent ++
      [{ cmd := "plugin:event|listen",
         args := Value.obj [("event", Value.str event),
                            ("windowLabel", targetValue target),
                            ("handler", Value.num p.1)],
         swallowRejection := false }] },
   p.1⟩

/-- Model of the event layer's `_unlisten(event, eventId)`: one awaited
call of the host primitive with the `"plugin:event|unlisten"` command;
nothing else — in particular no registry mutation. -/
def unlistenCall (w : Window) (event : String) (eventId : Value) : Window :=
  { w with sent := w.sent ++
      [{ cmd := "plugin:event|unlisten",
         args := Value.obj [("event", Value.str event), ("eventId", eventId)],
         swallowRejection := false }] }

/-- The unsubscribe thunk the `listen` promise resolves to once the host
has replied with the subscription token:
`async () => _unlisten(event, eventId)`. -/
def unsubscribeThunk (event : String) (eventId : Value) (w : Window) : Window :=
  unlistenCall w event eventId

/-- Model of the event layer's `once(event, handler, options)`: a
`listen` whose registered handler is the wrapper
`(eventData) => { handler(eventData); _unlisten(event, eventData.id).catch(() => {}) }`,
deep-embedded as `Handler.onceEvent`. -/
def onceSubscribe (w : Window) (event : String) (tag : Nat)
    (target : Option String) : ListenPending :=
  listen w event (.onceEvent tag event) target

/-- The host rejects an outstanding request: the error value surfaced to
the code awaiting that request, if any — `none` when the calling site's
no-op `.catch` swallows the rejection. -/
def surfacedRejection (req : SentRequest) (err : Value) : Option Value :=
  if req.swallowRejection then none else some err

/-- Model of `isTauri()` from `core.js`:
`return 'isTauri' in window && !!window.isTauri`.  A pure read of the
`window.isTauri` property; it is a function of the state only (no
registry mutation, no host invocation — it does not return a new
`Window`). -/
def isTauri (w : Window) : Bool :=
  match w.isTauriProp with
  | none => false
  | some v => truthy v

/-- The state in which a one-shot wrapper's underlying callback body
runs: the window with the entry's own property already deleted. -/
def afterSelfRemoval (w : Window) (id : Nat) : Window :=
  { w with entries := deleteProp w.entries id }

/-! Concrete inputs used by the closed scenario theorems, the
counterexamples and the witnesses. -/

/-- A fresh window whose oracle will produce the ids 1 and 2. -/
def wTransport : Window := { rng := [1, 2] }

/-- A window whose oracle produces the same uint32 value twice. -/
def wCollide : Window := { rng := [5, 5] }

/-- A fresh window whose oracle produces the id 7. -/
def wEvent : Window := { rng := [7] }

/-- The window left behind after `invoke("x", {})` on `wTransport` under
an inert host and a success delivery of `"v"`: both entries gone, the
promise resolved. -/
def wSettled : Window := { promises := [PromiseState.resolved (Value.str "v")] }

/-- The simulated host of the two mock scenarios: it answers the
command `"ping"` by returning `"pong"` and any other command by
throwing the object `{"code": 1}`. -/
def mockResponder : String → Value → Except Value Value :=
  fun cmd _ =>
    if cmd = "ping" then Except.ok (Value.str "pong")
    else Except.error (Value.obj [("code", Value.num 1)])

/-! ## Registry lemmas -/

theorem lookupProp_defineProp_self (es : List (Nat × RegEntry)) (id : Nat) (e : RegEntry) :
    lookupProp (defineProp es id e) id = some e := by
  induction es with
  | nil => simp [defineProp, lookupProp]
  | cons kv rest ih =>
    obtain ⟨k, v⟩ := kv
    by_cases hk : k = id
    · simp [defineProp, lookupProp, hk]
    · simp [defineProp, lookupProp, hk, ih]

theorem lookupProp_defineProp_ne (es : List (Nat × RegEntry)) (id : Nat) (e : RegEntry)
    (x : Nat) (hx : x ≠ id) : lookupProp (defineProp es id e) x = lookupProp es x := by
  induction es with
  | nil => simp [defineProp, lookupProp, Ne.symm hx]
  | cons kv rest ih =>
    obtain ⟨k, v⟩ := kv
    by_cases hk : k = id
    · subst hk
      simp [defineProp, lookupProp, Ne.symm hx]
    · by_cases hkx : k = x <;> simp [defineProp, lookupProp, hk, hkx, hx, ih]

theorem lookupProp_deleteProp_self (es : List (Nat × RegEntry)) (id : Nat) :
    lookupProp (deleteProp es id) id = none := by
  induction es with
  | nil => simp [deleteProp, lookupProp]
  | cons kv rest ih =>
    obtain ⟨k, v⟩ := kv
    by_cases hk : k = id
    · simp [deleteProp, hk, ih]
    · simp [deleteProp, lookupProp, hk, ih]

theorem lookupProp_deleteProp_ne (es : List (Nat × RegEntry)) (id : Nat)
    (x : Nat) (hx : x ≠ id) : lookupProp (deleteProp es id) x = lookupProp es x := by
  induction es with
  | nil => simp [deleteProp]
  | cons kv rest ih =>
    obtain ⟨k, v⟩ := kv
    by_cases hk : k = id
    · subst hk
      simp [deleteProp, lookupProp, Ne.symm hx, ih]
    · by_cases hkx : k = x <;> simp [deleteProp, lookupProp, hk, hkx, hx, ih]

/-- After deleting both members of a pair of ids, neither is live. -/
theorem lookupProp_deleteProp_pair (es : List (Nat × RegEntry)) (a b x : Nat)
    (hx : x = a ∨ x = b) :
    lookupProp (deleteProp (deleteProp es a) b) x = none := by
  rcases hx with hx | hx
  · subst hx
    by_cases hab : x = b
    · subst hab; exact lookupProp_deleteProp_self ..
    · rw [lookupProp_deleteProp_ne _ _ _ hab]
      exact lookupProp_deleteProp_self ..
  · subst hx; exact lookupProp_deleteProp_self ..

theorem mem_map_fst_defineProp (es : List (Nat × RegEntry)) (id : Nat) (e : RegEntry)
    (x : Nat) :
    x ∈ (defineProp es id e).map Prod.fst ↔ x = id ∨ x ∈ es.map Prod.fst := by
  induction es with
  | nil => simp [defineProp]
  | cons kv rest ih =>
    obtain ⟨k, v⟩ := kv
    by_cases hk : k = id
    · subst hk
      simp [defineProp]
    · simp [defineProp, hk, ih]
      tauto

/-- `defineProp` keeps the registry's keys free of duplicates: a
colliding definition replaces the existing property rather than adding
a second one. -/
theorem defineProp_keys_nodup (es : List (Nat × RegEntry)) (id : Nat) (e : RegEntry)
    (h : (es.map Prod.fst).Nodup) :
    ((defineProp es id e).map Prod.fst).Nodup := by
  induction es with
  | nil => simp [defineProp]
  | cons kv rest ih =>
    obtain ⟨k, v⟩ := kv
    simp only [List.map_cons, List.nodup_cons] at h
    by_cases hk : k = id
    · subst hk
      simpa [defineProp] using h
    · simp only [defineProp, hk, if_false, List.map_cons, List.nodup_cons]
      refine ⟨?_, ih h.2⟩
      intro hmem
      rcases (mem_map_fst_defineProp rest id e k).1 hmem with h1 | h1
      · exact hk h1
      · exact h.1 h1

/-! ## Promise-list lemmas -/

theorem set_concat_length (ps : List PromiseState) (p q : PromiseState) :
    (ps ++ [p]).set ps.length q = ps ++ [q] := by
  induction ps with
  | nil => rfl
  | cons a rest ih => simp [ih]

theorem getD_concat_length (ps : List PromiseState) (p d : PromiseState) :
    (ps ++ [p]).getD ps.length d = p := by
  induction ps with
  | nil => rfl
  | cons a rest ih => simp [List.getD, ih]

theorem settleReject_concat (ps : List PromiseState) (v : Value) :
    settleReject (ps ++ [.pending]) ps.length v = ps ++ [.rejected v] := by
  simp [settleReject, getD_concat_length, set_concat_length, PromiseState.rejectWith]

theorem settleResolve_concat (ps : List PromiseState) (v : Value) :
    settleResolve (ps ++ [.pending]) ps.length v = ps ++ [.resolved v] := by
  simp [settleResolve, getD_concat_length, set_concat_length, PromiseState.resolveWith]

/-! ## Invocation-channel lemmas -/

/-- The host calling back with an id that has no live entry is a
failure in the host's own context; no client state changes. -/
theorem hostInvoke_of_lookup_none (w : Window) (id : Nat) (v : Value)
    (h : lookupProp w.entries id = none) : hostInvoke w id v = none := by
  simp [hostInvoke, h]

/-- Core settlement lemma: in any window whose registry extends an
arbitrary prior registry with `invoke`'s success/error pair (ids `a`
and `b`), firing either entry leaves neither id live — including the
degenerate case `a = b` in which the error registration replaced the
success one. -/
theorem settle_pair_lookup (w2 : Window) (es : List (Nat × RegEntry)) (a b pid : Nat)
    (v : Value) (w' : Window)
    (hw2 : w2.entries
      = defineProp (defineProp es a ⟨.invokeResolve pid b, true⟩) b ⟨.invokeReject pid a, true⟩)
    (hfire : hostInvoke w2 a v = some w' ∨ hostInvoke w2 b v = some w') :
    lookupProp w'.entries a = none ∧ lookupProp w'.entries b = none := by
  rcases hfire with hfire | hfire
  · by_cases hab : a = b
    · subst hab
      have hl : lookupProp w2.entries a = some ⟨.invokeReject pid a, true⟩ := by
        rw [hw2]; exact lookupProp_defineProp_self ..
      simp only [hostInvoke, hl, Option.some.injEq] at hfire
      subst hfire
      constructor <;>
        simpa [runHandler] using
          lookupProp_deleteProp_pair w2.entries a a a (Or.inl rfl)
    · have hl : lookupProp w2.entries a = some ⟨.invokeResolve pid b, true⟩ := by
        rw [hw2, lookupProp_defineProp_ne _ _ _ _ hab]
        exact lookupProp_defineProp_self ..
      simp only [hostInvoke, hl, Option.some.injEq] at hfire
      subst hfire
      refine ⟨?_, ?_⟩
      · simpa [runHandler] using
          lookupProp_deleteProp_pair w2.entries a b a (Or.inl rfl)
      · simpa [runHandler] using
          lookupProp_deleteProp_pair w2.entries a b b (Or.inr rfl)
  · have hl : lookupProp w2.entries b = some ⟨.invokeReject pid a, true⟩ := by
      rw [hw2]; exact lookupProp_defineProp_self ..
    simp only [hostInvoke, hl, Option.some.injEq] at hfire
    subst hfire
    refine ⟨?_, ?_⟩
    · simpa [runHandler] using
        lookupProp_deleteProp_pair w2.entries b a a (Or.inr rfl)
    · simpa [runHandler] using
        lookupProp_deleteProp_pair w2.entries b a b (Or.inl rfl)

/-- Companion settlement lemma: under the same pair-registry hypothesis,
with the call's promise appended pending at index `ps.length`, firing
either entry settles that promise with the delivered payload — resolved
or rejected (the rejected branch also covers the degenerate collision
`a = b`, where the error registration replaced the success one). -/
theorem settle_pair_promise (w2 : Window) (es : List (Nat × RegEntry))
    (ps : List PromiseState) (a b : Nat) (v : Value) (w' : Window)
    (hw2 : w2.entries
      = defineProp (defineProp es a ⟨.invokeResolve ps.length b, true⟩) b
          ⟨.invokeReject ps.length a, true⟩)
    (hps : w2.promises = ps ++ [PromiseState.pending])
    (hfire : hostInvoke w2 a v = some w' ∨ hostInvoke w2 b v = some w') :
    promiseAt w' ps.length = PromiseState.resolved v
    ∨ promiseAt w' ps.length = PromiseState.rejected v := by
  rcases hfire with hfire | hfire
  · by_cases hab : a = b
    · subst hab
      have hl : lookupProp w2.entries a = some ⟨.invokeReject ps.length a, true⟩ := by
        rw [hw2]; exact lookupProp_defineProp_self ..
      simp only [hostInvoke, hl, Option.some.injEq] at hfire
      subst hfire
      right
      show (settleReject w2.promises ps.length v).getD ps.length PromiseState.pending
          = PromiseState.rejected v
      rw [hps, settleReject_concat, getD_concat_length]
    · have hl : lookupProp w2.entries a = some ⟨.invokeResolve ps.length b, true⟩ := by
        rw [hw2, lookupProp_defineProp_ne _ _ _ _ hab]
        exact lookupProp_defineProp_self ..
      simp only [hostInvoke, hl, Option.some.injEq] at hfire
      subst hfire
      left
      show (settleResolve w2.promises ps.length v).getD ps.length PromiseState.pending
          = PromiseState.resolved v
      rw [hps, settleResolve_concat, getD_concat_length]
  · have hl : lookupProp w2.entries b = some ⟨.invokeReject ps.length a, true⟩ := by
      rw [hw2]; exact lookupProp_defineProp_self ..
    simp only [hostInvoke, hl, Option.some.injEq] at hfire
    subst hfire
    right
    show (settleReject w2.promises ps.length v).getD ps.length PromiseState.pending
        = PromiseState.rejected v
    rw [hps, settleReject_concat, getD_concat_length]

/-! ## Claim theorems -/

/-- C1: for every call of the Invocation Channel's `invoke(command, args)`,
when the host later invokes either the success entry or the error entry,
the eventual settles — the call's promise leaves `pending`, carrying the
delivered payload as its resolution or rejection — and the sibling entry
is removed as well: after settlement neither the success id nor the
error id remains live in the registry. -/
theorem invoke_settlement_clears_both_entries
    (w : Window) (cmd : String) (args v : Value) (w' : Window)
    (hsettle :
      hostInvoke (invokeCall .inert w cmd args).w
          (invokeCall .inert w cmd args).callbackId v = some w'
      ∨ hostInvoke (invokeCall .inert w cmd args).w
          (invokeCall .inert w cmd args).errorId v = some w') :
    isLive w' (invokeCall .inert w cmd args).callbackId = false
    ∧ isLive w' (invokeCall .inert w cmd args).errorId = false
    ∧ (promiseAt w' (invokeCall .inert w cmd args).pid = PromiseState.resolved v
       ∨ promiseAt w' (invokeCall .inert w cmd args).pid = PromiseState.rejected v) := by
  have h := settle_pair_lookup (invokeCall .inert w cmd args).w w.entries
    (invokeCall .inert w cmd args).callbackId (invokeCall .inert w cmd args).errorId
    (invokeCall .inert w cmd args).pid v w' rfl hsettle
  have hp := settle_pair_promise (invokeCall .inert w cmd args).w w.entries w.promises
    (invokeCall .inert w cmd args).callbackId (invokeCall .inert w cmd args).errorId
    v w' rfl rfl hsettle
  exact ⟨by simp [isLive, h.1], by simp [isLive, h.2], hp⟩

/-- Witness for C1: `invoke("x", {})` on `wTransport` (ids 1 and 2),
success delivery of `"v"` reaching the state `wSettled`, whose promise 0
is settled. -/
theorem invoke_settlement_clears_both_entries_witness :
    isLive wSettled 1 = false ∧ isLive wSettled 2 = false
    ∧ (promiseAt wSettled 0 = PromiseState.resolved (Value.str "v")
       ∨ promiseAt wSettled 0 = PromiseState.rejected (Value.str "v")) :=
  invoke_settlement_clears_both_entries wTransport "x" (Value.obj []) (Value.str "v")
    wSettled (Or.inl rfl)

/-- C2: at most one settlement occurs per Pending Invocation: once either
the success or the error entry has fired, the host calling back against
either of that invocation's ids finds no live entry — the attempt is a
no-op/failure in the host's own context and never delivers a second
resolution or rejection of the eventual. -/
theorem invoke_settlement_idempotent
    (w : Window) (cmd : String) (args v : Value) (w' : Window)
    (hsettle :
      hostInvoke (invokeCall .inert w cmd args).w
          (invokeCall .inert w cmd args).callbackId v = some w'
      ∨ hostInvoke (invokeCall .inert w cmd args).w
          (invokeCall .inert w cmd args).errorId v = some w')
    (p2 : Value) :
    hostInvoke w' (invokeCall .inert w cmd args).callbackId p2 = none
    ∧ hostInvoke w' (invokeCall .inert w cmd args).errorId p2 = none := by
  have h := settle_pair_lookup (invokeCall .inert w cmd args).w w.entries
    (invokeCall .inert w cmd args).callbackId (invokeCall .inert w cmd args).errorId
    (invokeCall .inert w cmd args).pid v w' rfl hsettle
  exact ⟨hostInvoke_of_lookup_none _ _ _ h.1, hostInvoke_of_lookup_none _ _ _ h.2⟩

/-- Witness for C2: after the success settlement reaching `wSettled`,
a second host callback against either id 1 or id 2 is refused. -/
theorem invoke_settlement_idempotent_witness :
    hostInvoke wSettled 1 Value.null = none ∧ hostInvoke wSettled 2 Value.null = none :=
  invoke_settlement_idempotent wTransport "x" (Value.obj []) (Value.str "v")
    wSettled (Or.inl rfl) Value.null

/-- Counterexample to C3 as stated: with the host invocation primitive
throwing synchronously, `invoke("ping", {})` on a fresh window (ids 1
and 2) rejects the eventual immediately — but both registry entries
created for the call are still live afterwards, not cleaned up: the
promise executor's exception bypasses both callback bodies and nothing
deletes the two properties. -/
theorem invoke_transport_failure_leaks_entries_cex :
    promiseAt (invokeCall (.throws (Value.str "no host")) wTransport "ping").w
        (invokeCall (.throws (Value.str "no host")) wTransport "ping").pid
      = PromiseState.rejected (Value.str "no host")
    ∧ isLive (invokeCall (.throws (Value.str "no host")) wTransport "ping").w 1 = true
    ∧ isLive (invokeCall (.throws (Value.str "no host")) wTransport "ping").w 2 = true :=
  ⟨rfl, rfl, rfl⟩

/-- C3 amended: for every call `invoke(command, args)` in which the host
invocation primitive throws synchronously, the returned eventual is
rejected immediately with the thrown error, but the two registry
entries (success and error) created for that call are NOT cleaned up:
both ids are still live afterwards. -/
theorem invoke_transport_failure_rejects_but_keeps_entries
    (w : Window) (cmd : String) (args err : Value) :
    let r := invokeCall (.throws err) w cmd args
    promiseAt r.w r.pid = PromiseState.rejected err
    ∧ isLive r.w r.callbackId = true
    ∧ isLive r.w r.errorId = true := by
  intro r
  refine ⟨?_, ?_, ?_⟩
  · show (settleReject (w.promises ++ [PromiseState.pending]) w.promises.length err).getD
        w.promises.length PromiseState.pending = PromiseState.rejected err
    rw [settleReject_concat, getD_concat_length]
  · show isLive r.w r.callbackId = true
    by_cases hab : r.callbackId = r.errorId
    · have : lookupProp r.w.entries r.errorId
          = some ⟨.invokeReject r.pid r.callbackId, true⟩ := lookupProp_defineProp_self ..
      simp [isLive, hab, this]
    · have : lookupProp r.w.entries r.callbackId
          = some ⟨.invokeResolve r.pid r.errorId, true⟩ := by
        show lookupProp (defineProp
            (defineProp w.entries r.callbackId ⟨.invokeResolve r.pid r.errorId, true⟩)
            r.errorId ⟨.invokeReject r.pid r.callbackId, true⟩) r.callbackId = _
        rw [lookupProp_defineProp_ne _ _ _ _ hab]
        exact lookupProp_defineProp_self ..
      simp [isLive, this]
  · have : lookupProp r.w.entries r.errorId
        = some ⟨.invokeReject r.pid r.callbackId, true⟩ := lookupProp_defineProp_self ..
    simp [isLive, this]

/-- C4: a handler registered one-shot via `transformCallback(handler, true)`
has its registry entry removed before (as part of) the invocation: the
host's callback runs the handler body in the state with the entry
already deleted, where its id is no longer live — so a handler that
itself performs re-entrant registry access under its own id (the
`probe`) observes `false`, never its own stale entry. -/
theorem once_entry_removed_before_handler_runs
    (w : Window) (h : Handler) (p : Value) :
    let r := transformCallback w h true
    hostInvoke r.2 r.1 p = some (runHandler (afterSelfRemoval r.2 r.1) h p)
    ∧ isLive (afterSelfRemoval r.2 r.1) r.1 = false
    ∧ (h = Handler.probe r.1 →
        (runHandler (afterSelfRemoval r.2 r.1) h p).observations
          = w.observations ++ [false]) := by
  intro r
  have hl : lookupProp r.2.entries r.1 = some ⟨h, true⟩ := lookupProp_defineProp_self ..
  refine ⟨?_, ?_, ?_⟩
  · simp [hostInvoke, hl, afterSelfRemoval]
  · simp [afterSelfRemoval, isLive, lookupProp_deleteProp_self]
  · intro hp
    rw [hp]
    show w.observations ++ [isLive (afterSelfRemoval r.2 r.1) r.1]
        = w.observations ++ [false]
    simp [afterSelfRemoval, isLive, lookupProp_deleteProp_self]

/-- Counterexample to C5 as stated: on `wCollide` the oracle yields the
uint32 value 5 twice.  The first registration installs a live entry
under id 5; the second allocation nevertheless returns 5 — an
identifier equal to a currently-registered id, recycled while its entry
is live — and silently replaces that live entry. -/
theorem uid_collision_returns_live_id_cex :
    isLive (transformCallback wCollide (Handler.user 0) false).2 5 = true
    ∧ (transformCallback (transformCallback wCollide (Handler.user 0) false).2
        (Handler.user 1) false).1 = 5
    ∧ (transformCallback (transformCallback wCollide (Handler.user 0) false).2
        (Handler.user 1) false).2.entries = [(5, ⟨Handler.user 1, false⟩)] :=
  ⟨rfl, rfl, rfl⟩

/-- C5 amended: the registry itself never holds two live entries under
one id (a colliding definition replaces rather than duplicates, so
distinct-key-ness of the registry is preserved by every registration);
and an allocation returns an identifier distinct from every
currently-registered id exactly when the random draw happens to be
fresh — the code performs no collision check, so a colliding draw
returns an already-live id and silently replaces the live entry. -/
theorem transformCallback_fresh_draw_unique
    (w : Window) (h : Handler) (o : Bool)
    (hnodup : (w.entries.map Prod.fst).Nodup)
    (hfresh : isLive w ((w.rng.headD 0) % 4294967296) = false) :
    isLive w (transformCallback w h o).1 = false
    ∧ ((transformCallback w h o).2.entries.map Prod.fst).Nodup :=
  ⟨hfresh, defineProp_keys_nodup _ _ _ hnodup⟩

/-- Witness for C5 amended: a fresh draw (id 7) on an empty registry. -/
theorem transformCallback_fresh_draw_unique_witness :
    isLive wEvent (transformCallback wEvent (Handler.user 0) false).1 = false
    ∧ ((transformCallback wEvent (Handler.user 0) false).2.entries.map Prod.fst).Nodup :=
  transformCallback_fresh_draw_unique wEvent (Handler.user 0) false (by decide) rfl

/-- Counterexample to C6 as stated: `listen("tick", handler)` on
`wEvent` registers the persistent entry under id 7; the host replies
with subscription token 42; invoking the returned unsubscribe thunk
sends the `"plugin:event|unlisten"` command with the event name and the
token — but the persistent Registry Entry is still live afterwards: the
source's `_unlisten` never removes the local entry, acknowledged or
not. -/
theorem unlisten_thunk_keeps_entry_cex :
    isLive (unsubscribeThunk "tick" (Value.num 42)
        (listen wEvent "tick" (Handler.user 0) none).w) 7 = true
    ∧ (unsubscribeThunk "tick" (Value.num 42)
        (listen wEvent "tick" (Handler.user 0) none).w).sent.getLast?
      = some { cmd := "plugin:event|unlisten",
               args := Value.obj [("event", Value.str "tick"), ("eventId", Value.num 42)],
               swallowRejection := false } :=
  ⟨rfl, rfl⟩

/-- C6 amended: for every `listen(eventName, handler, options)`, the
eventual resolves to an unsubscribe thunk that, when invoked, calls the
`"unlisten"` command with the event name and the host-assigned
subscription token — but the persistent Registry Entry wrapping the
handler is NOT removed by the thunk: the registry is left unchanged
(the entry stays live; the source's `_unlisten` performs no local
cleanup, before or after acknowledgment). -/
theorem listen_thunk_sends_unlisten_but_keeps_entry
    (w : Window) (ev : String) (tag : Nat) (target : Option String) (eventId : Value) :
    let p := listen w ev (Handler.user tag) target
    lookupProp p.w.entries p.cbId = some ⟨Handler.user tag, false⟩
    ∧ (unsubscribeThunk ev eventId p.w).sent
        = p.w.sent ++ [{ cmd := "plugin:event|unlisten",
                         args := Value.obj [("event", Value.str ev), ("eventId", eventId)],
                         swallowRejection := false }]
    ∧ (unsubscribeThunk ev eventId p.w).entries = p.w.entries := by
  intro p
  exact ⟨lookupProp_defineProp_self .., rfl, rfl⟩

/-- C7: for every subscription created by `once(eventName, handler,
options)`, a delivered notification makes the wrapping handler forward
the event synchronously to the caller's handler and then issue the
unsubscribe call (`_unlisten(event, eventData.id)`) with a no-op
`.catch` attached: whatever error the host rejects that request with,
nothing is surfaced to the caller. -/
theorem once_delivery_forwards_then_unlistens_best_effort
    (w : Window) (ev : String) (tag : Nat) (target : Option String) (p : Value) :
    let P := onceSubscribe w ev tag target
    let req : SentRequest :=
      { cmd := "plugin:event|unlisten",
        args := Value.obj [("event", Value.str ev), ("eventId", getField p "id")],
        swallowRejection := true }
    ∃ w2, hostInvoke P.w P.cbId p = some w2
      ∧ w2.deliveries = P.w.deliveries ++ [(tag, p)]
      ∧ w2.sent = P.w.sent ++ [req]
      ∧ ∀ err, surfacedRejection req err = none := by
  intro P req
  have hl : lookupProp P.w.entries P.cbId = some ⟨Handler.onceEvent tag ev, false⟩ :=
    lookupProp_defineProp_self ..
  refine ⟨runHandler P.w (Handler.onceEvent tag ev) p, ?_, rfl, rfl, fun err => rfl⟩
  simp [hostInvoke, hl]

/-- C8: under the simulated host installed by `mockIPC(mockResponder)`,
`invoke("ping", {})` — where the host calls the success entry with the
payload `"pong"` — yields an eventual that resolves to `"pong"`; and
`invoke("fail", {})` — where the host calls the error entry with the
payload `{"code": 1}` — yields an eventual that rejects with exactly
`{"code": 1}`; both payloads carried verbatim. -/
theorem mock_scenarios_resolve_and_reject_verbatim :
    promiseAt (invokeCall (.mock mockResponder) wTransport "ping").w
        (invokeCall (.mock mockResponder) wTransport "ping").pid
      = PromiseState.resolved (Value.str "pong")
    ∧ promiseAt (invokeCall (.mock mockResponder) wTransport "fail").w
        (invokeCall (.mock mockResponder) wTransport "fail").pid
      = PromiseState.rejected (Value.obj [("code", Value.num 1)]) :=
  ⟨rfl, rfl⟩

/-- C9: for every handler registered via `transformCallback` (one-shot
or persistent) and every payload value, a host callback invocation on
that entry delivers exactly that payload, unmodified, to the handler —
in particular for the literal payload `{"value": 42}`, which is the
instance `p = Value.obj [("value", Value.num 42)]`. -/
theorem transformCallback_delivers_payload_verbatim
    (w : Window) (tag : Nat) (o : Bool) (p : Value) :
    let r := transformCallback w (Handler.user tag) o
    ∃ w2, hostInvoke r.2 r.1 p = some w2
      ∧ w2.deliveries = r.2.deliveries ++ [(tag, p)] := by
  intro r
  have hl : lookupProp r.2.entries r.1 = some ⟨Handler.user tag, o⟩ :=
    lookupProp_defineProp_self ..
  cases o with
  | false => exact ⟨runHandler r.2 (Handler.user tag) p, by simp [hostInvoke, hl], rfl⟩
  | true =>
    refine ⟨runHandler (afterSelfRemoval r.2 r.1) (Handler.user tag) p, ?_, rfl⟩
    simp [hostInvoke, hl, afterSelfRemoval]

/-- C10: `isTauri()` returns `true` exactly when the global window
object has a property named `isTauri` whose value is truthy, and
`false` otherwise.  It is modelled as a pure function `Window → Bool`:
by construction it performs no host invocation and leaves all state —
the registry included — unchanged. -/
theorem isTauri_true_iff_prop_truthy (w : Window) :
    isTauri w = true ↔ ∃ v, w.isTauriProp = some v ∧ truthy v = true := by
  cases hw : w.isTauriProp <;> simp [isTauri, hw]

end TauriSys
